import Mathlib

/-!
Shallow embedding of `nsetools/nse.py` (class `Nse`) for verifying the
natural-language specification of the repository.

Modelling conventions:
* Python `dict`s over string keys become `List (String × JVal)` with
  insertion-order-preserving, overwrite-on-repeat insertion (`dictInsert`).
* JSON payloads decoded by `res.json()` become the inductive `JVal`.
* Python floats produced by `float(str)` are modelled exactly: the parsed
  decimal value as mantissa and decimal exponent, plus the special values
  inf, neginf, nan.  No float arithmetic occurs anywhere in the source, so
  no rounding is needed.
* Wall-clock time is modelled in whole seconds as `Nat`.  `datetime.now()`
  only ever appears in subtractions `now - created` with `now ≥ created`.
* The raw transport (`self.opener`, `requests`) and helpers living outside
  `src/` (`byte_adaptor`, `render_response`) are external collaborators per
  spec §1/§6 and are modelled as explicit parameters / identity adapters.
-/

/-- Python `str.strip()` whitespace set (ASCII part). -/
def pyIsSpace (c : Char) : Bool :=
  c = ' ' || c = '\t' || c = '\n' || c = '\r' || c = '\x0b' || c = '\x0c'

/-- Python `str.strip()` on a character list. -/
def stripChars (cs : List Char) : List Char :=
  ((cs.dropWhile pyIsSpace).reverse.dropWhile pyIsSpace).reverse

/-- Python `str.upper()` (ASCII part, the only part the source exercises). -/
def pyUpper (s : String) : String :=
  String.mk (s.data.map Char.toUpper)

/-- Numeric value of a list of decimal digit characters. -/
def digitsVal (cs : List Char) : Nat :=
  cs.foldl (fun a c => a * 10 + (c.toNat - 48)) 0

/-- Consumes a run of decimal digits possibly separated by single
underscores (CPython's numeric-literal rule for `int()` / `float()`);
returns the digits and the unconsumed rest.  Assumes the head, if consumed,
is a digit (see `digitRun`). -/
def digitRunAux : List Char → List Char × List Char
  | [] => ([], [])
  | c :: rest =>
    if c.isDigit then
      let p := digitRunAux rest
      (c :: p.1, p.2)
    else if c = '_' then
      match rest with
      | d :: rest2 =>
        if d.isDigit then
          let p := digitRunAux rest2
          (d :: p.1, p.2)
        else ([], c :: rest)
      | [] => ([], [c])
    else ([], c :: rest)

/-- Digit run that only starts consuming when the first character is a
digit (underscores may not lead). -/
def digitRun (cs : List Char) : List Char × List Char :=
  match cs with
  | c :: _ => if c.isDigit then digitRunAux cs else ([], cs)
  | [] => ([], [])

/-- Model of Python's builtin `int(s)` on a string argument (base 10):
optional surrounding whitespace, optional sign, then a non-empty
underscore-separated digit run consuming the whole remainder.  Returns
`none` exactly when CPython raises `ValueError`. -/
def pyIntOfString (s : String) : Option Int :=
  let cs := stripChars s.data
  let sgn : Bool × List Char :=
    match cs with
    | '+' :: r => (false, r)
    | '-' :: r => (true, r)
    | r => (false, r)
  let p := digitRun sgn.2
  if p.1.isEmpty || !p.2.isEmpty then none
  else some (if sgn.1 then -(digitsVal p.1 : Int) else (digitsVal p.1 : Int))

/-- A Python float value as produced by `float(str)`.  `finite m e`
represents the exact decimal value `m × 10 ^ e`.  The representation keeps
the digits as parsed (it is not canonical across different spellings of
the same value), which is harmless because no code path in the source
compares or computes with floats; they are only carried in records. -/
inductive PyFloat where
  | finite : Int → Int → PyFloat
  | inf : PyFloat
  | neginf : PyFloat
  | nan : PyFloat
deriving DecidableEq

/-- Assembles the float value of a decimal literal from sign, integer
part, fractional part and decimal exponent. -/
def floatOfParts (neg : Bool) (ip fp : List Char) (ex : Int) : PyFloat :=
  let m : Nat := digitsVal (ip ++ fp)
  .finite (if neg then -(m : Int) else (m : Int)) (ex - fp.length)

/-- Model of Python's builtin `float(s)` on a string argument: optional
whitespace and sign; `inf`/`infinity`/`nan` words (case-insensitive); or a
decimal literal `digits [. digits] [e [sign] digits]` requiring at least
one digit in the mantissa, with CPython's underscore rule in each digit
run.  Returns `none` exactly when CPython raises `ValueError`. -/
def pyFloatOfString (s : String) : Option PyFloat :=
  let cs := stripChars s.data
  let sgn : Bool × List Char :=
    match cs with
    | '+' :: r => (true, r)
    | '-' :: r => (false, r)
    | r => (true, r)
  let pos := sgn.1
  let low := sgn.2.map Char.toLower
  if low = ['i', 'n', 'f'] || low = ['i', 'n', 'f', 'i', 'n', 'i', 't', 'y'] then
    some (if pos then .inf else .neginf)
  else if low = ['n', 'a', 'n'] then
    some .nan
  else
    let p1 := digitRun sgn.2
    let ip := p1.1
    let frac : Bool × List Char × List Char :=
      match p1.2 with
      | '.' :: r =>
        let p2 := digitRun r
        (true, p2.1, p2.2)
      | r => (false, [], r)
    let fp := frac.2.1
    if ip.isEmpty && fp.isEmpty then none
    else
      match frac.2.2 with
      | [] => some (floatOfParts (!pos) ip fp 0)
      | e :: r3 =>
        if e = 'e' || e = 'E' then
          let esgn : Bool × List Char :=
            match r3 with
            | '+' :: r => (false, r)
            | '-' :: r => (true, r)
            | r => (false, r)
          let p3 := digitRun esgn.2
          if p3.1.isEmpty || !p3.2.isEmpty then none
          else
            let ex : Int := if esgn.1 then -(digitsVal p3.1 : Int) else (digitsVal p3.1 : Int)
            some (floatOfParts (!pos) ip fp ex)
        else none

/-- A decoded JSON / Python value as it appears in the payloads the source
manipulates. -/
inductive JVal where
  | jNull : JVal
  | jBool : Bool → JVal
  | jInt : Int → JVal
  | jFloat : PyFloat → JVal
  | jStr : String → JVal
  | jList : List JVal → JVal
  | jObj : List (String × JVal) → JVal

/-- A Python dict over string keys, in insertion order. -/
abbrev CodeMap := List (String × JVal)

/-- Python dict assignment `d[k] = v`: overwrites in place if the key
exists, otherwise appends. -/
def dictInsert : CodeMap → String → JVal → CodeMap
  | [], k, v => [(k, v)]
  | (k', v') :: rest, k, v =>
    if k' = k then (k', v) :: rest else (k', v') :: dictInsert rest k v

/-- Python `d[k]` lookup on a dict built in insertion order (duplicate
keys keep the last binding, as `json` decoding does). -/
def lookupLast (fields : CodeMap) (k : String) : Option JVal :=
  fields.foldl (fun acc kv => if kv.1 = k then some kv.2 else acc) none

/-- Error taxonomy of the exceptions the modelled code can raise. -/
inductive Err where
  | transport : Err
  | noResponse : Err
  | wrongIndexCode : Err
  | valueError : Err
  | typeError : Err
  | keyError : String → Err
  | indexError : Err
deriving DecidableEq

/-- Python subscription `v[k]` with a string key: KeyError when the key is
absent, TypeError when `v` is not a dict. -/
def pyGetItem (v : JVal) (k : String) : Except Err JVal :=
  match v with
  | .jObj fields =>
    match lookupLast fields k with
    | some x => .ok x
    | none => .error (.keyError k)
  | _ => .error .typeError

/-- Python `v == s` where `s` is a `str`: true only for an equal string. -/
def pyEqStr (v : JVal) (s : String) : Bool :=
  match v with
  | .jStr t => t = s
  | _ => false

/-- Python `k in d.keys()`. -/
def pyDictHasKey (m : CodeMap) (k : String) : Bool :=
  m.any (fun kv => kv.1 = k)

/-- One value's treatment inside
`Nse.cast_intfloat_string_values_to_intfloat` (nse.py:204-217): strings go
through `int(...)`, then `float(...)`, and are kept verbatim when both
raise; non-strings are untouched (`type(d[keys]) == str`). -/
def castVal : JVal → JVal
  | .jStr s =>
    match pyIntOfString s with
    | some n => .jInt n
    | none =>
      match pyFloatOfString s with
      | some f => .jFloat f
      | none => .jStr s
  | v => v

/-- `Nse.cast_intfloat_string_values_to_intfloat` (nse.py:204-217): copies
the dict and rewrites each string value by the ordered int-then-float
parse attempt. -/
def cast_intfloat_string_values_to_intfloat (d : CodeMap) : CodeMap :=
  d.map (fun kv => (kv.1, castVal kv.2))

/-!
Session manager and fetch gateway (nse.py:288-305).
-/

/-- The identity of one `requests.Session()` object together with the
`_session_init_time` recorded for it. -/
structure SessionState where
  sessionId : Nat
  initTime : Nat
deriving DecidableEq

/-- The session-related state of one `Nse` instance: the current session,
the configured `session_refresh_interval` (nse.py:47-48, default 120), and
instrumentation counters for bootstraps (`create_session` calls) and GET
requests issued through `fetch`. -/
structure NseState where
  session : SessionState
  refreshInterval : Nat
  bootstrapCount : Nat
  fetchCount : Nat
deriving DecidableEq

/-- `Nse.create_session` (nse.py:288-293): replaces `_session` with a
fresh `requests.Session()` (modelled as a fresh identity), performs the
warm-up GET against the home page (modelled as always succeeding, per spec
§4.1 its failure would simply propagate), and records
`_session_init_time = dt.now()`. -/
def create_session (now : Nat) (st : NseState) : NseState :=
  { st with
    session := { sessionId := st.session.sessionId + 1, initTime := now },
    bootstrapCount := st.bootstrapCount + 1 }

/-- The value of `(dt.now() - self._session_init_time).seconds` in whole
seconds: Python's `timedelta.seconds` is the seconds COMPONENT of the
normalized timedelta, i.e. the total elapsed seconds modulo one day
(86400), not the total elapsed time. -/
def tdSeconds (now init : Nat) : Nat :=
  (now - init) % 86400

/-- `Nse.fetch` (nse.py:296-305): if the timedelta seconds component is
below `session_refresh_interval`, issue the GET on the existing session;
otherwise re-run `create_session` first and issue the GET on the new
session.  The transport's answer for this URL is the explicit `resp`
parameter; a transport-level exception propagates as `.error` after the
session handling already happened. -/
def fetch (resp : Except Err JVal) (now : Nat) (st : NseState) :
    Except Err JVal × NseState :=
  if tdSeconds now st.session.initTime < st.refreshInterval then
    (resp, { st with fetchCount := st.fetchCount + 1 })
  else
    let st2 := create_session now st
    (resp, { st2 with fetchCount := st2.fetchCount + 1 })

/-!
Reference-data cache (nse.py:45, 51-76, 159-184) with Python attribute
semantics: `__CODECACHE__ = None` is a class attribute; every write in the
source is `self.__CODECACHE__ = res_dict`, which creates an instance
attribute; every read `self.__CODECACHE__` consults the instance attribute
first and falls back to the class attribute.
-/

/-- The class-level attribute `Nse.__CODECACHE__` (nse.py:45).  The source
initializes it to `None` and never assigns the class attribute again. -/
structure CacheAttr where
  classCache : Option CodeMap

/-- The per-instance attribute dictionary slot for `__CODECACHE__`:
`none` while no `self.__CODECACHE__ = ...` assignment has run on this
instance, `some v` afterwards. -/
structure Inst where
  instCache : Option (Option CodeMap)

/-- Python attribute read `self.__CODECACHE__`: instance attribute if
set, else the class attribute. -/
def readCodeCache (cls : CacheAttr) (i : Inst) : Option CodeMap :=
  match i.instCache with
  | some v => v
  | none => cls.classCache

/-- Python attribute write `self.__CODECACHE__ = m`: creates/overwrites
the instance attribute only; the class attribute is untouched. -/
def writeCodeCache (_i : Inst) (m : CodeMap) : Inst :=
  { instCache := some (some m) }

/-- Outcome of one `self.opener.open(req)` transport call.  Modelled from
the spec: the raw transport is an external collaborator (spec §1) and the
`opener` attribute comes from outside `src/nse.py`; it either raises
(HTTPError/URLError), returns `None` (the source's explicit
`no response received` branch), or returns a response body. -/
inductive FetchOutcome where
  | transportErr : FetchOutcome
  | noResponse : FetchOutcome
  | ok : String → FetchOutcome

/-- Modelled from the spec: `byte_adaptor` lives in `nsetools.utils`,
outside `src/`; per the source comments it only converts a py3 byte
stream to a string file-like object, so on an already-textual body it is
the identity. -/
def byte_adaptor (body : String) : String := body

/-- Modelled from the spec: `render_response` lives in `nsetools.bases`,
outside `src/`; per spec §6 the `as_json` flag is purely presentational,
so with `as_json=False` (the default, used by every claim) the native
structured value is returned unchanged. -/
def render_response (d : CodeMap) : CodeMap := d

/-- `line != '' and re.search(',', line)` guard of nse.py:69. -/
def stockLineGuard (line : List Char) : Bool :=
  !line.isEmpty && line.contains ','

/-- Splits a character list at every occurrence of `sep` (Python
`str.split(sep)` with an explicit separator). -/
def splitOnCharAux (sep : Char) : List Char → List Char → List (List Char)
  | [], acc => [acc.reverse]
  | c :: rest, acc =>
    if c = sep then acc.reverse :: splitOnCharAux sep rest []
    else splitOnCharAux sep rest (c :: acc)

/-- Python `s.split(sep)` for a one-character separator. -/
def splitOnChar (sep : Char) (cs : List Char) : List (List Char) :=
  splitOnCharAux sep cs []

/-- The CSV parsing loop of `Nse.get_stock_codes` (nse.py:68-72): for each
line of the body that is non-empty and contains a comma, take the first
two comma-separated fields as code and name and store them in the dict. -/
def parseStockCsv (body : String) : CodeMap :=
  (splitOnChar '\n' body.data).foldl
    (fun acc line =>
      if stockLineGuard line then
        match splitOnChar ',' line with
        | code :: name :: _ =>
          dictInsert acc (String.mk code) (.jStr (String.mk name))
        | _ => acc
      else acc)
    []

/-- Result of one `get_stock_codes` / `get_fno_lot_sizes` call: the
returned value or raised exception, the class and instance attribute state
afterwards, and whether a transport call (`self.opener.open`) was made. -/
structure StockCallResult where
  result : Except Err CodeMap
  clsAfter : CacheAttr
  instAfter : Inst
  didFetch : Bool

/-- `Nse.get_stock_codes` (nse.py:51-76): serve `__CODECACHE__` when
`cached is True` and the cache is not `None`; otherwise hit the transport,
parse the CSV, and store the result via `self.__CODECACHE__ = res_dict`
before returning it through `render_response`.  A transport exception or
the `None`-response branch raises before the cache assignment. -/
def get_stock_codes (cached : Bool) (cls : CacheAttr) (inst : Inst)
    (outcome : FetchOutcome) : StockCallResult :=
  if cached ∧ (readCodeCache cls inst).isSome then
    { result := .ok (render_response ((readCodeCache cls inst).getD [])),
      clsAfter := cls, instAfter := inst, didFetch := false }
  else
    match outcome with
    | .transportErr =>
      { result := .error .transport, clsAfter := cls, instAfter := inst, didFetch := true }
    | .noResponse =>
      { result := .error .noResponse, clsAfter := cls, instAfter := inst, didFetch := true }
    | .ok body =>
      let m := parseStockCsv (byte_adaptor body)
      { result := .ok (render_response m), clsAfter := cls,
        instAfter := writeCodeCache inst m, didFetch := true }

/-- Python `needle in haystack` on character lists (substring test),
modelling `line.casefold().find('symbol') == -1` checks. -/
def startsWithSeq : List Char → List Char → Bool
  | [], _ => true
  | _ :: _, [] => false
  | a :: as, b :: bs => a = b && startsWithSeq as bs

/-- Substring occurrence test on character lists. -/
def containsSeq (needle : List Char) : List Char → Bool
  | [] => needle.isEmpty
  | c :: rest => startsWithSeq needle (c :: rest) || containsSeq needle rest

/-- The guard of nse.py:177:
`line != '' and re.search(',', line) and (line.casefold().find('symbol') == -1)`. -/
def fnoLineGuard (line : List Char) : Bool :=
  !line.isEmpty && line.contains ',' &&
    !containsSeq ['s', 'y', 'm', 'b', 'o', 'l'] (line.map Char.toLower)

/-- The CSV parsing loop of `Nse.get_fno_lot_sizes` (nse.py:176-180): for
each accepted line, `(code, name) = [x.strip() for x in line.split(',')[1:3]]`
followed by `res_dict[code] = int(name)`.  Unpacking a slice of length ≠ 2
raises ValueError, as does `int` on a non-numeric field; the exception
propagates before the cache assignment. -/
def parseFnoCsv (body : String) : Except Err CodeMap :=
  (splitOnChar '\n' body.data).foldlM
    (fun acc line =>
      if fnoLineGuard line then
        match ((splitOnChar ',' line).drop 1).take 2 with
        | [codeCs, nameCs] =>
          match pyIntOfString (String.mk (stripChars nameCs)) with
          | some n => .ok (dictInsert acc (String.mk (stripChars codeCs)) (.jInt n))
          | none => .error .valueError
        | _ => .error .valueError
      else .ok acc)
    []

/-- `Nse.get_fno_lot_sizes` (nse.py:159-184): identical caching structure
to `get_stock_codes`, over the same shared `__CODECACHE__` attribute, with
its own CSV parsing. -/
def get_fno_lot_sizes (cached : Bool) (cls : CacheAttr) (inst : Inst)
    (outcome : FetchOutcome) : StockCallResult :=
  if cached ∧ (readCodeCache cls inst).isSome then
    { result := .ok (render_response ((readCodeCache cls inst).getD [])),
      clsAfter := cls, instAfter := inst, didFetch := false }
  else
    match outcome with
    | .transportErr =>
      { result := .error .transport, clsAfter := cls, instAfter := inst, didFetch := true }
    | .noResponse =>
      { result := .error .noResponse, clsAfter := cls, instAfter := inst, didFetch := true }
    | .ok body =>
      match parseFnoCsv (byte_adaptor body) with
      | .error e =>
        { result := .error e, clsAfter := cls, instAfter := inst, didFetch := true }
      | .ok m =>
        { result := .ok (render_response m), clsAfter := cls,
          instAfter := writeCodeCache inst m, didFetch := true }

/-- Result of one `is_valid_code` call.  The Python function can return
`True`, `False`, or fall off the end returning `None` (modelled as
`Option Bool`, with `none` for Python `None`). -/
structure ValidCodeResult where
  result : Except Err (Option Bool)
  instAfter : Inst

/-- `Nse.is_valid_code` (nse.py:78-88): for a truthy `code`, look the
upper-cased code up in `get_stock_codes()` (cached); for a falsy `code`
(the empty string) no branch runs and the function returns `None`. -/
def is_valid_code (code : String) (cls : CacheAttr) (inst : Inst)
    (outcome : FetchOutcome) : ValidCodeResult :=
  if code = "" then
    { result := .ok none, instAfter := inst }
  else
    let r := get_stock_codes true cls inst outcome
    match r.result with
    | .error e => { result := .error e, instAfter := r.instAfter }
    | .ok m =>
      { result := .ok (some (pyDictHasKey m (pyUpper code))), instAfter := r.instAfter }

/-!
Product queries over JSON payloads (nse.py:103-128, 219-251).
-/

/-- `Nse.get_top_gainers` (nse.py:103-114): decode the payload; with no
index selector, pass the whole dict through the normalizer; with a
selector, return `res_dict[index]['data']` verbatim. -/
def get_top_gainers (index : Option String) (resp : Except Err JVal)
    (now : Nat) (st : NseState) : Except Err JVal × NseState :=
  let st2 := (fetch resp now st).2
  let r : Except Err JVal :=
    match (fetch resp now st).1 with
    | .error e => .error e
    | .ok payload =>
      match index with
      | none =>
        match payload with
        | .jObj fields => .ok (.jObj (cast_intfloat_string_values_to_intfloat fields))
        | _ => .error .typeError
      | some idx =>
        match pyGetItem payload idx with
        | .error e => .error e
        | .ok sub => pyGetItem sub "data"
  (r, st2)

/-- `Nse.get_top_losers` (nse.py:117-128): textually the same computation
as `get_top_gainers` on the losers URL. -/
def get_top_losers (index : Option String) (resp : Except Err JVal)
    (now : Nat) (st : NseState) : Except Err JVal × NseState :=
  let st2 := (fetch resp now st).2
  let r : Except Err JVal :=
    match (fetch resp now st).1 with
    | .error e => .error e
    | .ok payload =>
      match index with
      | none =>
        match payload with
        | .jObj fields => .ok (.jObj (cast_intfloat_string_values_to_intfloat fields))
        | _ => .error .typeError
      | some idx =>
        match pyGetItem payload idx with
        | .error e => .error e
        | .ok sub => pyGetItem sub "data"
  (r, st2)

/-- `Nse.get_all_index_quote` (nse.py:243-251): one fetch, then
`res.json()['data']` returned verbatim. -/
def get_all_index_quote (resp : Except Err JVal) (now : Nat) (st : NseState) :
    Except Err JVal × NseState :=
  let st2 := (fetch resp now st).2
  let r : Except Err JVal :=
    match (fetch resp now st).1 with
    | .error e => .error e
    | .ok payload => pyGetItem payload "data"
  (r, st2)

/-- Splits on whitespace runs discarding empties (Python `str.split()`
with no argument). -/
def splitWsAux : List Char → List Char → List (List Char)
  | [], acc => if acc.isEmpty then [] else [acc.reverse]
  | c :: rest, acc =>
    if pyIsSpace c then
      if acc.isEmpty then splitWsAux rest []
      else acc.reverse :: splitWsAux rest []
    else splitWsAux rest (c :: acc)

/-- Joins words with single spaces (Python `' '.join(words)`). -/
def joinWithSpace : List (List Char) → List Char
  | [] => []
  | [w] => w
  | w :: ws => w ++ ' ' :: joinWithSpace ws

/-- The code normalization of nse.py:235-236 (also nse.py:136-137):
`code = code.upper()` then `code = ' '.join(code.split())`. -/
def normCode (code : String) : String :=
  String.mk (joinWithSpace (splitWsAux (pyUpper code).data []))

/-- `Nse.get_index_quote` (nse.py:225-241): fetch all index quotes,
extract `indexSymbol` of every entry, normalize the user code, and either
normalize-and-return the first matching entry or raise
`Exception('Wrong index code')`. -/
def get_index_quote (code : String) (resp : Except Err JVal) (now : Nat)
    (st : NseState) : Except Err JVal × NseState :=
  let st2 := (get_all_index_quote resp now st).2
  let r : Except Err JVal :=
    match (get_all_index_quote resp now st).1 with
    | .error e => .error e
    | .ok aiq =>
      match aiq with
      | .jList items =>
        match items.mapM (fun i => pyGetItem i "indexSymbol") with
        | .error e => .error e
        | .ok index_list =>
          let c := normCode code
          if index_list.any (fun v => pyEqStr v c) then
            match items.filter (fun i =>
                match pyGetItem i "indexSymbol" with
                | .ok v => pyEqStr v c
                | .error _ => false) with
            | [] => .error .indexError
            | first :: _ =>
              match first with
              | .jObj fields => .ok (.jObj (cast_intfloat_string_values_to_intfloat fields))
              | _ => .error .typeError
          else .error .wrongIndexCode
      | _ => .error .typeError
  (r, st2)

/-!
Helper lemmas shared by several claim theorems.
-/

theorem fetch_fst (resp : Except Err JVal) (now : Nat) (st : NseState) :
    (fetch resp now st).1 = resp := by
  unfold fetch
  split <;> rfl

theorem fetch_fetchCount (resp : Except Err JVal) (now : Nat) (st : NseState) :
    (fetch resp now st).2.fetchCount = st.fetchCount + 1 := by
  unfold fetch create_session
  split <;> rfl

theorem fetch_fresh (resp : Except Err JVal) (now : Nat) (st : NseState)
    (h : tdSeconds now st.session.initTime < st.refreshInterval) :
    (fetch resp now st).2 = { st with fetchCount := st.fetchCount + 1 } := by
  unfold fetch
  rw [if_pos h]

theorem fetch_stale (resp : Except Err JVal) (now : Nat) (st : NseState)
    (h : ¬ tdSeconds now st.session.initTime < st.refreshInterval) :
    (fetch resp now st).2 =
      { st with
        session := { sessionId := st.session.sessionId + 1, initTime := now },
        bootstrapCount := st.bootstrapCount + 1,
        fetchCount := st.fetchCount + 1 } := by
  unfold fetch create_session
  rw [if_neg h]

theorem castVal_idem (v : JVal) : castVal (castVal v) = castVal v := by
  cases v with
  | jStr s =>
    cases h1 : pyIntOfString s with
    | some n => simp [castVal, h1]
    | none =>
      cases h2 : pyFloatOfString s with
      | some f => simp [castVal, h1, h2]
      | none => simp [castVal, h1, h2]
  | jNull => rfl
  | jBool b => rfl
  | jInt n => rfl
  | jFloat f => rfl
  | jList xs => rfl
  | jObj fs => rfl

/-- C1 counterexample: with the default 120-second interval and a session
created at time 0, the calls at times 100 and 150 are 50 seconds apart
(within the interval of each other) yet the second one re-bootstraps and
returns a new session identity; and the call at time 86400 — a full day
after creation, far beyond the interval — performs no bootstrap and keeps
the old identity, because `timedelta.seconds` is the elapsed time modulo
86400. -/
theorem fetch_refresh_claim_counterexample :
    (150 - 100 < 120 ∧
      (fetch (.ok .jNull) 100 ⟨⟨1, 0⟩, 120, 0, 0⟩).2.session.sessionId = 1 ∧
      (fetch (.ok .jNull) 150
        ((fetch (.ok .jNull) 100 ⟨⟨1, 0⟩, 120, 0, 0⟩).2)).2.session.sessionId = 2 ∧
      (fetch (.ok .jNull) 150
        ((fetch (.ok .jNull) 100 ⟨⟨1, 0⟩, 120, 0, 0⟩).2)).2.bootstrapCount = 1) ∧
    (86400 ≥ 120 ∧
      (fetch (.ok .jNull) 86400 ⟨⟨1, 0⟩, 120, 0, 0⟩).2.bootstrapCount = 0 ∧
      (fetch (.ok .jNull) 86400 ⟨⟨1, 0⟩, 120, 0, 0⟩).2.session.sessionId = 1) := by
  decide

/-- C1 (amended): session freshness is judged per call from the session's
creation time through the timedelta seconds component
`(now - createdAt) % 86400`: while that component stays below
`refreshIntervalSeconds` every `fetch` returns the existing session
identity with no bootstrap (so two such calls share one identity), and a
call that finds the component at or above the interval performs exactly
one bootstrap and returns a fresh session identity created at that call's
time. -/
theorem fetch_session_refresh_policy (r1 r2 : Except Err JVal) (t1 t2 : Nat)
    (st : NseState) :
    (tdSeconds t1 st.session.initTime < st.refreshInterval →
      (fetch r1 t1 st).2.session = st.session ∧
      (fetch r1 t1 st).2.bootstrapCount = st.bootstrapCount ∧
      (tdSeconds t2 st.session.initTime < st.refreshInterval →
        (fetch r2 t2 (fetch r1 t1 st).2).2.session = st.session ∧
        (fetch r2 t2 (fetch r1 t1 st).2).2.bootstrapCount = st.bootstrapCount)) ∧
    (st.refreshInterval ≤ tdSeconds t1 st.session.initTime →
      (fetch r1 t1 st).2.bootstrapCount = st.bootstrapCount + 1 ∧
      (fetch r1 t1 st).2.session.sessionId = st.session.sessionId + 1 ∧
      (fetch r1 t1 st).2.session.initTime = t1) := by
  constructor
  · intro h1
    have e1 := fetch_fresh r1 t1 st h1
    rw [e1]
    refine ⟨rfl, rfl, ?_⟩
    intro h2
    have e2 := fetch_fresh r2 t2 { st with fetchCount := st.fetchCount + 1 } h2
    rw [e2]
    exact ⟨rfl, rfl⟩
  · intro h1
    have e1 := fetch_stale r1 t1 st (not_lt.mpr h1)
    rw [e1]
    exact ⟨rfl, rfl, rfl⟩

theorem fetch_session_refresh_policy_witness :
    (fetch (.ok .jNull) 100 ⟨⟨1, 0⟩, 120, 0, 0⟩).2.session = ⟨1, 0⟩ ∧
    (fetch (.ok .jNull) 200 ⟨⟨1, 0⟩, 120, 0, 0⟩).2.bootstrapCount = 0 + 1 :=
  ⟨((fetch_session_refresh_policy (.ok .jNull) (.ok .jNull) 100 0
      ⟨⟨1, 0⟩, 120, 0, 0⟩).1 (by decide)).1,
    ((fetch_session_refresh_policy (.ok .jNull) (.ok .jNull) 200 0
      ⟨⟨1, 0⟩, 120, 0, 0⟩).2 (by decide)).1⟩

/-- C5: the normalizer leaves already-numeric values unchanged, attempts
integer parse then float parse on every string value, keeps strings
failing both parses verbatim; on the baseline example record the result is
`ltp` as the float 123.45 (mantissa 12345, exponent -2), the dash sentinel
kept as the literal string, and `volume` as the integer 1000. -/
theorem cast_intfloat_baseline :
    (∀ (n : Int), castVal (.jInt n) = .jInt n) ∧
    (∀ (f : PyFloat), castVal (.jFloat f) = .jFloat f) ∧
    (∀ (s : String) (n : Int), pyIntOfString s = some n → castVal (.jStr s) = .jInt n) ∧
    (∀ (s : String) (f : PyFloat), pyIntOfString s = none → pyFloatOfString s = some f →
      castVal (.jStr s) = .jFloat f) ∧
    (∀ (s : String), pyIntOfString s = none → pyFloatOfString s = none →
      castVal (.jStr s) = .jStr s) ∧
    cast_intfloat_string_values_to_intfloat
      [("ltp", .jStr "123.45"), ("change", .jStr "-"), ("volume", .jStr "1000")] =
      [("ltp", .jFloat (.finite 12345 (-2))), ("change", .jStr "-"), ("volume", .jInt 1000)] := by
  refine ⟨fun n => rfl, fun f => rfl, ?_, ?_, ?_, rfl⟩
  · intro s n h
    simp [castVal, h]
  · intro s f h1 h2
    simp [castVal, h1, h2]
  · intro s h1 h2
    simp [castVal, h1, h2]

theorem cast_intfloat_baseline_witness :
    castVal (.jStr "-") = .jStr "-" :=
  cast_intfloat_baseline.2.2.2.2.1 "-" rfl rfl

/-- C6: the normalizer is idempotent on every record. -/
theorem cast_intfloat_idempotent (d : CodeMap) :
    cast_intfloat_string_values_to_intfloat (cast_intfloat_string_values_to_intfloat d) =
      cast_intfloat_string_values_to_intfloat d := by
  induction d with
  | nil => rfl
  | cons kv rest ih =>
    simp only [cast_intfloat_string_values_to_intfloat, List.map_cons, List.map_map] at ih ⊢
    rw [castVal_idem]
    exact congrArg _ ih

theorem readCodeCache_write (cls : CacheAttr) (i : Inst) (m : CodeMap) :
    readCodeCache cls (writeCodeCache i m) = some m := rfl

/-- C2: starting from any client state, if a `cached=True` call of
`get_stock_codes` succeeds with mapping `m`, an immediately following
`cached=True` call is served from the cache: it returns the same mapping,
performs no transport call, and the two calls together perform at most one
transport call; moreover every `cached=False` call performs a transport
call whatever the cache holds. -/
theorem get_stock_codes_cache_policy (cls : CacheAttr) (i0 : Inst)
    (o1 o2 : FetchOutcome) (m : CodeMap)
    (h : (get_stock_codes true cls i0 o1).result = .ok m) :
    (get_stock_codes true cls (get_stock_codes true cls i0 o1).instAfter o2).result = .ok m ∧
    (get_stock_codes true cls (get_stock_codes true cls i0 o1).instAfter o2).didFetch = false ∧
    (get_stock_codes true cls i0 o1).didFetch.toNat +
      (get_stock_codes true cls (get_stock_codes true cls i0 o1).instAfter o2).didFetch.toNat ≤ 1 ∧
    (∀ (i : Inst) (o : FetchOutcome), (get_stock_codes false cls i o).didFetch = true) := by
  have always : ∀ (i : Inst) (o : FetchOutcome),
      (get_stock_codes false cls i o).didFetch = true := by
    intro i o
    cases o <;> simp [get_stock_codes]
  have hread : readCodeCache cls (get_stock_codes true cls i0 o1).instAfter = some m := by
    cases hc : readCodeCache cls i0 with
    | some m0 =>
      simp [get_stock_codes, hc, render_response] at h ⊢
      exact h
    | none =>
      cases o1 with
      | transportErr => simp [get_stock_codes, hc] at h
      | noResponse => simp [get_stock_codes, hc] at h
      | ok body =>
        simp [get_stock_codes, hc, render_response, byte_adaptor,
          readCodeCache_write] at h ⊢
        exact h
  generalize hg : get_stock_codes true cls i0 o1 = r1 at hread ⊢
  have hdf2 : (get_stock_codes true cls r1.instAfter o2).didFetch = false := by
    simp [get_stock_codes, hread]
  refine ⟨?_, hdf2, ?_, always⟩
  · simp [get_stock_codes, hread, render_response]
  · rw [hdf2]
    cases r1.didFetch <;> simp

theorem get_stock_codes_cache_policy_witness :
    (get_stock_codes true ⟨none⟩
      (get_stock_codes true ⟨none⟩ ⟨none⟩ (.ok "TCS,Tata Consultancy Services")).instAfter
      .transportErr).result = .ok [("TCS", .jStr "Tata Consultancy Services")] :=
  (get_stock_codes_cache_policy ⟨none⟩ ⟨none⟩ (.ok "TCS,Tata Consultancy Services")
    .transportErr [("TCS", .jStr "Tata Consultancy Services")] rfl).1

/-- C4: if the cache already holds a mapping `m` and a forced
(`cached=False`) refresh hits a transport failure or the no-response case,
the call raises the corresponding exception, the stored cache entry is
untouched, and a subsequent `cached=True` call still returns the stale
mapping `m` without any transport call. -/
theorem get_stock_codes_failure_preserves_cache (cls : CacheAttr) (i : Inst)
    (m : CodeMap) (fo o2 : FetchOutcome) (hm : readCodeCache cls i = some m)
    (hf : fo = .transportErr ∨ fo = .noResponse) :
    ((get_stock_codes false cls i fo).result = .error .transport ∨
      (get_stock_codes false cls i fo).result = .error .noResponse) ∧
    (get_stock_codes false cls i fo).instAfter = i ∧
    (get_stock_codes true cls (get_stock_codes false cls i fo).instAfter o2).result = .ok m ∧
    (get_stock_codes true cls (get_stock_codes false cls i fo).instAfter o2).didFetch = false := by
  rcases hf with rfl | rfl <;>
    simp [get_stock_codes, hm, render_response]

theorem get_stock_codes_failure_preserves_cache_witness :
    (get_stock_codes true ⟨none⟩
      (get_stock_codes false ⟨none⟩ ⟨some (some [("TCS", .jStr "Tata Consultancy Services")])⟩
        .transportErr).instAfter
      .noResponse).result = .ok [("TCS", .jStr "Tata Consultancy Services")] :=
  (get_stock_codes_failure_preserves_cache ⟨none⟩
    ⟨some (some [("TCS", .jStr "Tata Consultancy Services")])⟩
    [("TCS", .jStr "Tata Consultancy Services")] .transportErr .noResponse rfl
    (Or.inl rfl)).2.2.1

/-- C9 counterexample: with the class attribute in its initial `None`
state, one instance's successful `cached=True` fetch populates only that
instance's attribute; a second instance sharing the same class state then
finds no cache on its own `cached=True` call and performs its own
transport fetch, contradicting the claimed cross-instance sharing. -/
theorem class_cache_sharing_counterexample :
    (get_stock_codes true ⟨none⟩ ⟨none⟩ (.ok "ABC,Abc Industries")).result =
      .ok [("ABC", .jStr "Abc Industries")] ∧
    (get_stock_codes true ⟨none⟩ ⟨none⟩ (.ok "ABC,Abc Industries")).instAfter.instCache =
      some (some [("ABC", .jStr "Abc Industries")]) ∧
    (get_stock_codes true
      (get_stock_codes true ⟨none⟩ ⟨none⟩ (.ok "ABC,Abc Industries")).clsAfter
      ⟨none⟩ (.ok "ABC,Abc Industries")).didFetch = true :=
  ⟨rfl, rfl, rfl⟩

/-- C9 (amended): `self.__CODECACHE__ = res_dict` creates a per-instance
attribute and never touches the class attribute, which stays `None`; hence
after any `cached=True` call by one instance, a second instance whose own
attribute is unset reads `None` through the class attribute and performs
its own transport fetch. -/
theorem cache_not_shared_across_instances (cls : CacheAttr) (iA iB : Inst)
    (oA oB : FetchOutcome) (hcls : cls.classCache = none)
    (hB : iB.instCache = none) :
    (get_stock_codes true cls iA oA).clsAfter = cls ∧
    (get_stock_codes true (get_stock_codes true cls iA oA).clsAfter iB oB).didFetch = true := by
  have hcl : (get_stock_codes true cls iA oA).clsAfter = cls := by
    unfold get_stock_codes
    split
    · rfl
    · cases oA <;> rfl
  have hrB : readCodeCache cls iB = none := by
    simp [readCodeCache, hB, hcls]
  refine ⟨hcl, ?_⟩
  rw [hcl]
  cases oB <;> simp [get_stock_codes, hrB]

theorem cache_not_shared_across_instances_witness :
    (get_stock_codes true
      (get_stock_codes true ⟨none⟩ ⟨none⟩ (.ok "ABC,Abc Industries")).clsAfter
      ⟨none⟩ .transportErr).didFetch = true :=
  (cache_not_shared_across_instances ⟨none⟩ ⟨none⟩ ⟨none⟩
    (.ok "ABC,Abc Industries") .transportErr rfl rfl).2

/-- C3 (code evaluation at the failing input): both reference-data
products share the single `__CODECACHE__` attribute.  After
`get_stock_codes` has populated it with the symbol→name mapping, a
`get_fno_lot_sizes(cached=True)` call on the same instance performs no
transport fetch and returns that symbol-directory mapping (string-valued,
not lot sizes) — even when a real lot-size fetch would have failed. -/
theorem fno_lot_sizes_shared_cache_bug :
    (get_fno_lot_sizes true
      (get_stock_codes true ⟨none⟩ ⟨none⟩ (.ok "ABC,Abc Industries")).clsAfter
      (get_stock_codes true ⟨none⟩ ⟨none⟩ (.ok "ABC,Abc Industries")).instAfter
      .transportErr).result = .ok [("ABC", .jStr "Abc Industries")] ∧
    (get_fno_lot_sizes true
      (get_stock_codes true ⟨none⟩ ⟨none⟩ (.ok "ABC,Abc Industries")).clsAfter
      (get_stock_codes true ⟨none⟩ ⟨none⟩ (.ok "ABC,Abc Industries")).instAfter
      .transportErr).didFetch = false :=
  ⟨rfl, rfl⟩

/-- C7 (code evaluation at the failing input): `is_valid_code` returns
`True`/`False` by upper-cased key membership for non-empty codes, but for
the falsy empty string it skips the whole body and returns Python `None`,
which is not the boolean `False` the claim (and the docstring) promise. -/
theorem is_valid_code_eval :
    (is_valid_code "" ⟨none⟩ ⟨none⟩ .transportErr).result = .ok none ∧
    (is_valid_code "tcs" ⟨none⟩ ⟨none⟩ (.ok "TCS,Tata Consultancy Services")).result =
      .ok (some true) ∧
    (is_valid_code "zzz" ⟨none⟩ ⟨none⟩ (.ok "TCS,Tata Consultancy Services")).result =
      .ok (some false) ∧
    (Except.ok (none : Option Bool) : Except Err (Option Bool)) ≠ .ok (some false) :=
  ⟨rfl, rfl, rfl, by simp⟩

/-- C8: whenever the fetched payload decodes to an index list whose
`indexSymbol` entries do not contain the upper-cased,
whitespace-collapsed user code, `get_index_quote` raises the
`Wrong index code` validation error — a value distinct from the transport
and empty-response errors — and its entire state effect is that of the one
`fetch` it performed: the fetch counter rises by exactly one (no retry)
and, when the session was fresh, no session recreation happens. -/
theorem get_index_quote_unknown_code (code : String) (payload : JVal)
    (items syms : List JVal) (now : Nat) (st : NseState)
    (hdata : pyGetItem payload "data" = .ok (.jList items))
    (hsyms : items.mapM (fun i => pyGetItem i "indexSymbol") = .ok syms)
    (habs : syms.any (fun v => pyEqStr v (normCode code)) = false) :
    (get_index_quote code (.ok payload) now st).1 = .error .wrongIndexCode ∧
    Err.wrongIndexCode ≠ Err.transport ∧
    Err.wrongIndexCode ≠ Err.noResponse ∧
    (get_index_quote code (.ok payload) now st).2 = (fetch (.ok payload) now st).2 ∧
    (get_index_quote code (.ok payload) now st).2.fetchCount = st.fetchCount + 1 ∧
    (tdSeconds now st.session.initTime < st.refreshInterval →
      (get_index_quote code (.ok payload) now st).2.session = st.session ∧
      (get_index_quote code (.ok payload) now st).2.bootstrapCount = st.bootstrapCount) := by
  refine ⟨?_, by simp, by simp, rfl, fetch_fetchCount _ _ _, ?_⟩
  · simp only [get_index_quote, get_all_index_quote, fetch_fst, hdata, hsyms, habs]
    rfl
  · intro hfr
    have e1 : (get_index_quote code (.ok payload) now st).2 = (fetch (.ok payload) now st).2 := rfl
    rw [e1, fetch_fresh _ _ _ hfr]
    exact ⟨rfl, rfl⟩

theorem get_index_quote_unknown_code_witness :
    (get_index_quote "NOT-A-REAL-INDEX"
      (.ok (.jObj [("data", .jList [.jObj [("indexSymbol", .jStr "NIFTY 50")]])]))
      10 ⟨⟨1, 0⟩, 120, 0, 0⟩).1 = .error .wrongIndexCode :=
  (get_index_quote_unknown_code "NOT-A-REAL-INDEX"
    (.jObj [("data", .jList [.jObj [("indexSymbol", .jStr "NIFTY 50")]])])
    [.jObj [("indexSymbol", .jStr "NIFTY 50")]] [.jStr "NIFTY 50"]
    10 ⟨⟨1, 0⟩, 120, 0, 0⟩ rfl rfl rfl).1

/-- C10: with an index selector, `get_top_gainers` and `get_top_losers`
return the selector's `data` sub-list verbatim from the decoded payload,
with no normalization; only the no-selector path pipes the payload through
`cast_intfloat_string_values_to_intfloat`. -/
theorem top_gainers_losers_selector_verbatim (idx : String)
    (payload sub dat : JVal) (fields : CodeMap) (now : Nat) (st : NseState)
    (h1 : pyGetItem payload idx = .ok sub)
    (h2 : pyGetItem sub "data" = .ok dat) :
    (get_top_gainers (some idx) (.ok payload) now st).1 = .ok dat ∧
    (get_top_losers (some idx) (.ok payload) now st).1 = .ok dat ∧
    (get_top_gainers none (.ok (.jObj fields)) now st).1 =
      .ok (.jObj (cast_intfloat_string_values_to_intfloat fields)) ∧
    (get_top_losers none (.ok (.jObj fields)) now st).1 =
      .ok (.jObj (cast_intfloat_string_values_to_intfloat fields)) := by
  refine ⟨?_, ?_, ?_, ?_⟩ <;>
    simp [get_top_gainers, get_top_losers, fetch_fst, h1, h2]

theorem top_gainers_losers_selector_verbatim_witness :
    (get_top_gainers (some "NIFTY")
      (.ok (.jObj [("NIFTY", .jObj [("data",
        .jList [.jObj [("ltp", .jStr "123.45")]])])]))
      10 ⟨⟨1, 0⟩, 120, 0, 0⟩).1 = .ok (.jList [.jObj [("ltp", .jStr "123.45")]]) :=
  (top_gainers_losers_selector_verbatim "NIFTY"
    (.jObj [("NIFTY", .jObj [("data", .jList [.jObj [("ltp", .jStr "123.45")]])])])
    (.jObj [("data", .jList [.jObj [("ltp", .jStr "123.45")]])])
    (.jList [.jObj [("ltp", .jStr "123.45")]]) [] 10 ⟨⟨1, 0⟩, 120, 0, 0⟩ rfl rfl).1
